import Mathlib

/-!
Verification of the limb grid-editing core.

Shallow embedding of the grid occupancy / editing engine of the `limb`
repository: the `LibraryGrid` class (`src/lib/libraryGrid.ts`), the cell-key
helpers (`src/lib/cellKeys.ts`), the edit-session logic of
`src/components/LibraryScene/LibraryScene.tsx` (history, safe delete,
batch-deletion confirmation, selection sanitization, mode gating) and the
camera math module (pan with rubber-banding, zoom about a screen point).

Conventions of the embedding:
* JavaScript `Map`s become insertion-ordered association lists; `Map.set`
  overwrites in place when the key exists and appends otherwise.
* JavaScript `Set`s of cell-key strings become duplicate-free lists of
  integer pairs (`cellKey` is a bijection between `(gx, gy)` and its string
  encoding, so keys are modelled directly as pairs); `Set.add` appends when
  absent, iteration order is insertion order.
* The undo/redo stacks are lists with the top at the head; the JS arrays
  push/pop at the far end and `shift` from the front, so the head of the
  Lean list is the JS array's end and evicting the oldest entry is
  `dropLast`.
* `generateCellId` (wall clock plus randomness in the source) is modelled
  as a fresh-counter allocator; the well-formedness predicate `Grid.WF`
  states that every live id is below the counter.
* Floating point numbers become rationals.
* Callbacks to the UI shell are modelled as an explicit list of emitted
  events; the staged batch-deletion confirmation is modelled by a result
  constructor carrying the count and the pending committed state.
-/

namespace Limb

/-- Grid cell: stable identity plus integer grid coordinates
(`Cell` in `src/lib/libraryGrid.ts`). -/
structure Cell where
  id : Nat
  gx : Int
  gy : Int
deriving DecidableEq, Repr

/-- A cell key. The source encodes `(gx, gy)` as the string `"gx,gy"`
(`cellKey` in `src/lib/cellKeys.ts`), a bijection, so keys are modelled
directly as pairs. -/
abbrev Key := Int × Int

/-- The key of a cell (`cellKey(cell.gx, cell.gy)`). -/
def keyOf (c : Cell) : Key := (c.gx, c.gy)

/-- Insertion-ordered association-list model of a JavaScript `Map`:
lookup of the first entry with the given key. -/
def mapGet {α β : Type} [DecidableEq α] (m : List (α × β)) (k : α) : Option β :=
  (m.find? (fun p => p.1 = k)).map (·.2)

/-- JavaScript `Map.has`. -/
def mapHas {α β : Type} [DecidableEq α] (m : List (α × β)) (k : α) : Bool :=
  m.any (fun p => p.1 = k)

/-- JavaScript `Map.set`: overwrite in place when the key is present,
append otherwise. -/
def mapSet {α β : Type} [DecidableEq α] (m : List (α × β)) (k : α) (v : β) :
    List (α × β) :=
  if mapHas m k then m.map (fun p => if p.1 = k then (k, v) else p)
  else m ++ [(k, v)]

/-- JavaScript `Map.delete` (as the resulting map). -/
def mapDel {α β : Type} [DecidableEq α] (m : List (α × β)) (k : α) :
    List (α × β) :=
  m.filter (fun p => ¬ p.1 = k)

/-- The `LibraryGrid` class: `cellsById: Map<CellId, Cell>` and
`occupancy: Map<string, CellId>`, plus the fresh-id counter modelling
`generateCellId`. -/
structure Grid where
  cellsById : List (Nat × Cell)
  occupancy : List (Key × Nat)
  nextId : Nat
deriving DecidableEq, Repr

namespace Grid

/-- `getAllCells()`: the values of `cellsById` in insertion order. -/
def getAllCells (g : Grid) : List Cell := g.cellsById.map (·.2)

/-- `isOccupied(gx, gy)`. -/
def isOccupied (g : Grid) (gx gy : Int) : Bool := mapHas g.occupancy (gx, gy)

/-- `getCell(id)`. -/
def getCell (g : Grid) (id : Nat) : Option Cell := mapGet g.cellsById id

/-- `addCellAt(gx, gy)`: `null` (and no change) when the position is
occupied, otherwise allocate a fresh id and insert into both maps. -/
def addCellAt (g : Grid) (gx gy : Int) : Option Nat × Grid :=
  if mapHas g.occupancy (gx, gy) then (none, g)
  else
    let id := g.nextId
    (some id,
      { cellsById := mapSet g.cellsById id ⟨id, gx, gy⟩
        occupancy := mapSet g.occupancy (gx, gy) id
        nextId := g.nextId + 1 })

/-- `removeCell(id)`: `false` when the id is unknown, otherwise delete
from both maps. -/
def removeCell (g : Grid) (id : Nat) : Bool × Grid :=
  match g.getCell id with
  | none => (false, g)
  | some cell =>
      (true,
        { g with
            cellsById := mapDel g.cellsById id
            occupancy := mapDel g.occupancy (keyOf cell) })

/-- `getCellCount()`. -/
def getCellCount (g : Grid) : Nat := g.cellsById.length

/-- `clear()`. -/
def clear (g : Grid) : Grid := { g with cellsById := [], occupancy := [] }

/-- Helper for `setFromCellKeys`: fresh cells, one per key, with
consecutive fresh ids. -/
def mkCells (nid : Nat) : List Key → List Cell
  | [] => []
  | k :: ks => ⟨nid, k.1, k.2⟩ :: mkCells (nid + 1) ks

/-- Modelled from the spec: `setFromCellKeys(keys)` is called by the
scene's undo/redo/commit paths but its body is not part of the sources;
per the spec it "replaces the entire occupancy with a fresh set,
reassigning new identities to every cell". -/
def setFromCellKeys (g : Grid) (keys : List Key) : Grid :=
  let cells := mkCells g.nextId keys
  { cellsById := cells.map (fun c => (c.id, c))
    occupancy := cells.map (fun c => (keyOf c, c.id))
    nextId := g.nextId + keys.length }

/-- Well-formedness: `cellsById` maps each id to a cell carrying that id,
and every live id is below the fresh-id counter. -/
def WF (g : Grid) : Prop := ∀ p ∈ g.cellsById, p.1 = p.2.id ∧ p.2.id < g.nextId

end Grid

/-- Modelled from the spec: 4-adjacency of cell keys — "cells are adjacent
iff they differ by exactly 1 in one axis and 0 in the other". -/
def adjKey (a b : Key) : Bool :=
  (a.1 - b.1).natAbs + (a.2 - b.2).natAbs == 1

/-- One step of the traversal closure: add every key adjacent to a
visited key. -/
def growStep (keys visited : List Key) : List Key :=
  visited ++ keys.filter
    (fun k => (!(visited.any (fun v => v = k))) &&
      visited.any (fun v => adjKey v k))

/-- Iterated traversal closure. -/
def growIter : Nat → List Key → List Key → List Key
  | 0, _, visited => visited
  | n + 1, keys, visited => growIter n keys (growStep keys visited)

/-- Modelled from the spec: `isConnected` is imported from
`src/lib/cellKeys.ts` by the scene but its body is not part of the
sources; per the spec, connectivity is computed by a breadth/depth-first
traversal over the occupancy set from an arbitrary remaining cell, and
succeeds iff all remaining cells are reached (zero or one remaining cell
is trivially connected). Here the traversal is a flood fill iterated
`keys.length` times, which reaches the fixpoint of the closure. -/
def isConnected (keys : List Key) : Bool :=
  match keys with
  | [] => true
  | k :: _ => keys.all (fun k2 => growIter keys.length keys [k] |>.any (fun v => v = k2))

/-- History entry type tag (`HistoryAction["type"]`). -/
inductive HType where
  | add
  | remove
  | batch
  | clear
deriving DecidableEq, Repr

/-- A history entry (`HistoryAction` in `LibraryScene.tsx`): snapshot of
the occupancy key set before and after the mutation. -/
structure HAction where
  ty : HType
  before : List Key
  after : List Key
  meta : Option String
deriving DecidableEq, Repr

/-- Scene mode (`mode` prop, mirrored into `modeRef`). -/
inductive Mode where
  | edit
  | view
deriving DecidableEq, Repr

/-- Events the scene reports to the UI shell through its callback props. -/
inductive Ev where
  | deleteBlocked (reason : String)
  | multiSel (n : Nat)
  | history (canUndo canRedo : Bool)
deriving DecidableEq, Repr

/-- `MAX_HISTORY` (`LibraryScene.tsx` line 697). -/
def MAX_HISTORY : Nat := 100

/-- `DELETE_CONFIRM_THRESHOLD` (`LibraryScene.tsx` line 698). -/
def DELETE_CONFIRM_THRESHOLD : Nat := 20

/-- The reason string passed to `onDeleteBlocked`. -/
def blockedMsg : String := "Delete blocked: would split structure"

/-- The mutable closure state of the initialized `LibraryScene` effect:
grid, history stacks, single selection, multi selection, marquee flag,
mode and the safe-delete toggle. -/
structure Scene where
  grid : Grid
  undoStack : List HAction
  redoStack : List HAction
  selectedCellKey : Option Nat
  multiSelected : List Key
  marqueeActive : Bool
  mode : Mode
  safeDelete : Bool
deriving DecidableEq, Repr

namespace Scene

/-- `getOccupiedKeys()`: the key of every live cell, in insertion order
(a JS `Set` built from `getAllCells()`). -/
def occKeys (st : Scene) : List Key := st.grid.getAllCells.map keyOf

/-- The occupancy key set, for set-level statements. -/
def occSet (st : Scene) : Finset Key := st.occKeys.toFinset

/-- The set-equality test `pushHistory` performs on its two snapshots:
`before.size === after.size && [...before].every((k) => after.has(k))`. -/
def keySetEqb (a b : List Key) : Bool :=
  a.length == b.length && a.all (fun k => b.any (fun k2 => k2 = k))

/-- `pushHistory(before, after, type, meta)` acting on the two stacks;
returns the new stacks together with the emitted events. -/
def pushHistory (before after : List Key) (ty : HType) (meta : Option String)
    (undoS redoS : List HAction) :
    List HAction × List HAction × List Ev :=
  if keySetEqb before after then (undoS, redoS, [])
  else
    let pushed := { ty := ty, before := before, after := after, meta := meta } :: undoS
    let undoS2 := if pushed.length > MAX_HISTORY then pushed.dropLast else pushed
    (undoS2, [], [Ev.history (!undoS2.isEmpty) false])

/-- `sanitizeSelection()`: drop the single selection when its cell no
longer exists, drop multi-selected keys whose position is free, then
notify the multi-selection count. -/
def sanitizeSelection (st : Scene) : Scene × Ev :=
  let sel := match st.selectedCellKey with
    | some id => if (st.grid.getCell id).isSome then some id else none
    | none => none
  let ms := st.multiSelected.filter (fun k => st.grid.isOccupied k.1 k.2)
  ({ st with selectedCellKey := sel, multiSelected := ms }, Ev.multiSel ms.length)

/-- `commitOccupancy(next, type, meta)`: snapshot, swap the grid contents,
record history, sanitize the selection. (The shelf rebuild and overlay
update are rendering effects with no modelled state.) -/
def commitOccupancy (next : List Key) (ty : HType) (meta : Option String)
    (st : Scene) : Scene × List Ev :=
  let before := st.occKeys
  let g2 := st.grid.setFromCellKeys next
  let hist := pushHistory before next ty meta st.undoStack st.redoStack
  let st1 := { st with grid := g2, undoStack := hist.1, redoStack := hist.2.1 }
  let san := sanitizeSelection st1
  (san.1, hist.2.2 ++ [san.2])

/-- `canApplyDeletion(nextOccupied)`: always allowed when safe delete is
off or the result is empty, otherwise the result must be connected. -/
def canApplyDeletion (st : Scene) (next : List Key) : Bool :=
  if !st.safeDelete then true
  else if next.isEmpty then true
  else isConnected next

/-- `addCellAtRef.current(gx, gy)` (LibraryScene.tsx lines 1120-1135).
Note: unlike every other mutation entry point, this one has no edit-mode
guard in the source. -/
def addCellAt (gx gy : Int) (st : Scene) : Bool × Scene × List Ev :=
  let next := st.occKeys
  if next.any (fun k => k = (gx, gy)) then (false, st, [])
  else
    let c := commitOccupancy (next ++ [(gx, gy)]) HType.add none st
    (true, c.1, c.2)

/-- `removeCellRef.current(id)` (LibraryScene.tsx lines 1140-1153). -/
def removeCell (id : Nat) (st : Scene) : Bool × Scene × List Ev :=
  if st.mode ≠ Mode.edit then (false, st, [])
  else
    match st.grid.getCell id with
    | none => (false, st, [])
    | some cell =>
        let st0 := if st.selectedCellKey = some id
          then { st with selectedCellKey := none } else st
        let next := st0.occKeys.erase (keyOf cell)
        if !canApplyDeletion st0 next then
          (false, st0, [Ev.deleteBlocked blockedMsg])
        else
          let c := commitOccupancy next HType.remove none st0
          (true, c.1, c.2)

/-- Result of `removeSelectedCells` / `clear`: nothing to do, blocked by
the connectivity policy, committed immediately, or staged behind the
`onRequestDelete(n, perform)` confirmation — `pending` is the state and
events `perform()` produces, the live state being unchanged until then. -/
inductive DelResult where
  | noop
  | blocked (evs : List Ev)
  | committed (st : Scene) (evs : List Ev)
  | staged (n : Nat) (pending : Scene × List Ev)
deriving DecidableEq, Repr

/-- The `performBatch` helper inside `removeSelectedCellsRef.current`:
stage behind the confirmation callback when the count exceeds the
threshold and a callback is supplied, otherwise commit now. `doCommit`
clears the selection, commits, and re-notifies the multi-selection
count. -/
def performBatch (st : Scene) (hasCb : Bool) (next : List Key) (n : Nat)
    (ty : HType) (meta : Option String) (clearSel : Scene → Scene) : DelResult :=
  let doCommit : Scene × List Ev :=
    let c := commitOccupancy next ty meta (clearSel st)
    (c.1, c.2 ++ [Ev.multiSel c.1.multiSelected.length])
  if n > DELETE_CONFIRM_THRESHOLD && hasCb then DelResult.staged n doCommit
  else DelResult.committed doCommit.1 doCommit.2

/-- The ids of the multi-selected cells (`idsToRemove`). -/
def batchIds (st : Scene) : List Nat :=
  (st.grid.getAllCells.filter
    (fun c => st.multiSelected.any (fun k => k = keyOf c))).map (·.id)

/-- The occupancy that batch removal would leave (`next` in the source). -/
def batchNext (st : Scene) : List Key :=
  (batchIds st).foldl
    (fun acc id =>
      match st.grid.getCell id with
      | some c => acc.erase (keyOf c)
      | none => acc)
    st.occKeys

/-- `removeSelectedCellsRef.current()` (LibraryScene.tsx lines
1154-1218). `hasCb` states whether an `onRequestDelete` callback is
installed. -/
def removeSelectedCells (hasCb : Bool) (st : Scene) : DelResult :=
  if st.mode ≠ Mode.edit then DelResult.noop
  else if st.multiSelected.length > 0 then
    let ids := batchIds st
    let next := batchNext st
    if !canApplyDeletion st next then DelResult.blocked [Ev.deleteBlocked blockedMsg]
    else
      performBatch st hasCb next ids.length HType.batch
        (if ids.length > 0
          then some ("Removed " ++ toString ids.length ++ " cells") else none)
        (fun s =>
          { s with
              selectedCellKey :=
                match s.selectedCellKey with
                | some sel => if ids.any (fun i => i = sel) then none else some sel
                | none => none
              multiSelected := [] })
  else
    match st.selectedCellKey with
    | none => DelResult.noop
    | some selId =>
        match st.grid.getCell selId with
        | none => DelResult.noop
        | some cell =>
            let next := st.occKeys.erase (keyOf cell)
            if !canApplyDeletion st next then
              DelResult.blocked [Ev.deleteBlocked blockedMsg]
            else
              performBatch st hasCb next 1 HType.remove none
                (fun s => { s with selectedCellKey := none })

/-- `clearRef.current()` (LibraryScene.tsx lines 1219-1233). -/
def clearOp (hasCb : Bool) (st : Scene) : DelResult :=
  if st.mode ≠ Mode.edit then DelResult.noop
  else
    let n := st.occKeys.length
    let doClear : Scene × List Ev :=
      let c := commitOccupancy [] HType.clear none
        { st with selectedCellKey := none, multiSelected := [] }
      (c.1, c.2 ++ [Ev.multiSel c.1.multiSelected.length])
    if n > DELETE_CONFIRM_THRESHOLD && hasCb then DelResult.staged n doClear
    else DelResult.committed doClear.1 doClear.2

/-- `undo()` (LibraryScene.tsx lines 1235-1244). -/
def undo (st : Scene) : Scene × List Ev :=
  if st.mode ≠ Mode.edit then (st, [])
  else
    match st.undoStack with
    | [] => (st, [])
    | act :: rest =>
        let st1 := { st with
          undoStack := rest
          redoStack := act :: st.redoStack
          grid := st.grid.setFromCellKeys act.before }
        let san := sanitizeSelection st1
        (san.1, [san.2,
          Ev.history (!san.1.undoStack.isEmpty) (!san.1.redoStack.isEmpty)])

/-- `redo()` (LibraryScene.tsx lines 1246-1255). -/
def redo (st : Scene) : Scene × List Ev :=
  if st.mode ≠ Mode.edit then (st, [])
  else
    match st.redoStack with
    | [] => (st, [])
    | act :: rest =>
        let st1 := { st with
          redoStack := rest
          undoStack := act :: st.undoStack
          grid := st.grid.setFromCellKeys act.after }
        let san := sanitizeSelection st1
        (san.1, [san.2,
          Ev.history (!san.1.undoStack.isEmpty) (!san.1.redoStack.isEmpty)])

/-- `canUndo()`. -/
def canUndo (st : Scene) : Bool := !st.undoStack.isEmpty

/-- `canRedo()`. -/
def canRedo (st : Scene) : Bool := !st.redoStack.isEmpty

/-- The first live cell at a given coordinate (the `for ... of
getAllCells()` searches in the pointer and key handlers). -/
def cellAt (st : Scene) (gx gy : Int) : Option Cell :=
  st.grid.getAllCells.find? (fun c => c.gx = gx && c.gy = gy)

/-- The double-tap toggle branch of `onPointerUp` (LibraryScene.tsx lines
1464-1489), given the tapped grid coordinate: only in edit mode, remove
the cell at the coordinate when occupied, otherwise add one there. -/
def onDoubleTap (gx gy : Int) (st : Scene) : Scene × List Ev :=
  if st.mode = Mode.edit then
    if st.grid.isOccupied gx gy then
      match cellAt st gx gy with
      | some c => let r := removeCell c.id st; (r.2.1, r.2.2)
      | none => (st, [])
    else
      let r := addCellAt gx gy st
      (r.2.1, r.2.2)
  else (st, [])

/-- The single-tap selection branch of `onPointerUp` (LibraryScene.tsx
lines 1490-1536), given the tapped grid coordinate and the shift-key
state. A tapped coordinate passes the `inBounds` test iff it is occupied
(occupied cells always lie inside the grid's bounding box). -/
def onTapSelect (gx gy : Int) (shift : Bool) (st : Scene) : Scene × List Ev :=
  match cellAt st gx gy with
  | none => (st, [])
  | some c =>
      let key := keyOf c
      if shift then
        let ms := if st.multiSelected.any (fun k => k = key)
          then st.multiSelected.erase key
          else st.multiSelected ++ [key]
        ({ st with multiSelected := ms, selectedCellKey := some c.id },
          [Ev.multiSel ms.length])
      else
        let sel := if st.selectedCellKey = some c.id then none else some c.id
        ({ st with multiSelected := [], selectedCellKey := sel },
          [Ev.multiSel 0])

/-- The Escape branch of `onKeyDown` (LibraryScene.tsx lines 1618-1633):
cancel an active marquee, else clear the multi selection, else clear the
single selection. -/
def onEscape (st : Scene) : Scene × List Ev :=
  if st.marqueeActive then ({ st with marqueeActive := false }, [])
  else if st.multiSelected.length > 0 then
    ({ st with multiSelected := [] }, [Ev.multiSel 0])
  else ({ st with selectedCellKey := none }, [])

/-- The arrow-key branch of `onKeyDown` (LibraryScene.tsx lines
1661-1698): with a single cell selected, toggle the neighbor in the given
direction — but only in edit mode. `dx, dy` is the key's offset. -/
def onArrowKey (dx dy : Int) (st : Scene) : Scene × List Ev :=
  match st.selectedCellKey with
  | none => (st, [])
  | some selId =>
      match st.grid.getCell selId with
      | none => (st, [])
      | some cell =>
          let tx := cell.gx + dx
          let ty2 := cell.gy + dy
          if st.mode = Mode.edit then
            if st.grid.isOccupied tx ty2 then
              match cellAt st tx ty2 with
              | some c => let r := removeCell c.id st; (r.2.1, r.2.2)
              | none => (st, [])
            else
              let r := addCellAt tx ty2 st
              (r.2.1, r.2.2)
          else (st, [])

/-- Integer range `[a, b]` as a list (for the marquee loops). -/
def intRange (a b : Int) : List Int :=
  (List.range (b - a + 1).toNat).map (fun i => a + (i : Int))

/-- JS `Set.add` on a key list: append when absent. -/
def setAdd (l : List Key) (k : Key) : List Key :=
  if l.any (fun k2 => k2 = k) then l else l ++ [k]

/-- The marquee-release branch of `onPointerUp` (LibraryScene.tsx lines
1409-1445): every occupied cell whose grid coordinate falls in the
dragged rectangle (floor/ceil on cell-size boundaries, clamped to the
grid bounds `gb`) joins the multi selection; the marquee ends. The
local-space rectangle and the cell metrics are rationals. -/
def onMarqueeRelease (minX minY maxX maxY cw ch : ℚ)
    (gb : Int × Int × Int × Int) (st : Scene) : Scene × List Ev :=
  let gxMin := max gb.1 ⌊minX / cw⌋
  let gxMax := min gb.2.1 (⌈maxX / cw⌉ - 1)
  let gyMin := max gb.2.2.1 ⌊minY / ch⌋
  let gyMax := min gb.2.2.2 (⌈maxY / ch⌉ - 1)
  let ms := (intRange gxMin gxMax).foldl
    (fun acc gx =>
      (intRange gyMin gyMax).foldl
        (fun acc2 gy =>
          if st.grid.isOccupied gx gy then setAdd acc2 (gx, gy) else acc2)
        acc)
    st.multiSelected
  ({ st with multiSelected := ms, marqueeActive := false },
    [Ev.multiSel ms.length])

/-- Replace the mode field (the `modeRef` write in the mode effect). -/
def setMode (m : Mode) (st : Scene) : Scene := { st with mode := m }

end Scene

/-! ## Camera (`src/components/LibraryScene/camera.ts`, embedded as the
final related chunk of `LibraryScene.tsx`), over the rationals. -/

/-- `CameraState`. -/
structure CameraState where
  cx : ℚ
  cy : ℚ
  s : ℚ
deriving DecidableEq, Repr

/-- `ZOOM_MIN`. -/
def ZOOM_MIN : ℚ := 1 / 2

/-- `ZOOM_MAX`. -/
def ZOOM_MAX : ℚ := 5 / 2

/-- `freeRadiusFactor`. -/
def freeRadiusFactor : ℚ := 1 / 4

/-- `rubberConstant`. -/
def rubberConstant : ℚ := 9 / 10

/-- `screenToWorld(sx, sy, state, screenW, screenH)`. -/
def screenToWorld (sx sy : ℚ) (st : CameraState) (screenW screenH : ℚ) : ℚ × ℚ :=
  ((sx - screenW / 2) / st.s + st.cx, (sy - screenH / 2) / st.s + st.cy)

/-- `worldToScreen(wx, wy, state, screenW, screenH)`. -/
def worldToScreen (wx wy : ℚ) (st : CameraState) (screenW screenH : ℚ) : ℚ × ℚ :=
  ((wx - st.cx) * st.s + screenW / 2, (wy - st.cy) * st.s + screenH / 2)

/-- `clampZoom(state)`. -/
def clampZoom (st : CameraState) : CameraState :=
  { st with s := max ZOOM_MIN (min ZOOM_MAX st.s) }

/-- `zoomAboutScreenPoint(state, sx, sy, factor, screenW, screenH)`. -/
def zoomAboutScreenPoint (st : CameraState) (sx sy factor screenW screenH : ℚ) :
    CameraState :=
  let w := screenToWorld sx sy st screenW screenH
  let st1 := clampZoom { st with s := st.s * factor }
  { st1 with
      cx := w.1 - (sx - screenW / 2) / st1.s
      cy := w.2 - (sy - screenH / 2) / st1.s }

/-- The `applyRubber` closure inside `applyPanWithRubber`. -/
def applyRubber (raw center freeR : ℚ) : ℚ :=
  let off := raw - center
  let a := |off|
  if a ≤ freeR then raw
  else
    let sign : ℚ := if off < 0 then -1 else 1
    center + sign * (freeR + (a - freeR) * rubberConstant)

/-- `applyPanWithRubber(state, dScreenX, dScreenY, screenW, screenH,
centerWorld)`. -/
def applyPanWithRubber (st : CameraState) (dScreenX dScreenY screenW screenH : ℚ)
    (centerWorld : ℚ × ℚ) : CameraState :=
  let dxWorld := -dScreenX / st.s
  let dyWorld := -dScreenY / st.s
  let rawCx := st.cx + dxWorld
  let rawCy := st.cy + dyWorld
  let freeRadiusX := freeRadiusFactor * (screenW / 2) / st.s
  let freeRadiusY := freeRadiusFactor * (screenH / 2) / st.s
  { st with
      cx := applyRubber rawCx centerWorld.1 freeRadiusX
      cy := applyRubber rawCy centerWorld.2 freeRadiusY }

/-- The pan conversion C8 describes taken literally — "converts the
screen delta to a world delta by dividing by the scale s" — with the rest
of the rubber formula as in the source. Used only to compare the claim's
wording against the source, which negates the screen delta. -/
def applyPanWithRubberClaimed (st : CameraState)
    (dScreenX dScreenY screenW screenH : ℚ) (centerWorld : ℚ × ℚ) : CameraState :=
  let rawCx := st.cx + dScreenX / st.s
  let rawCy := st.cy + dScreenY / st.s
  let freeRadiusX := freeRadiusFactor * (screenW / 2) / st.s
  let freeRadiusY := freeRadiusFactor * (screenH / 2) / st.s
  { st with
      cx := applyRubber rawCx centerWorld.1 freeRadiusX
      cy := applyRubber rawCy centerWorld.2 freeRadiusY }

/-! ## Supporting lemmas -/

/-- The fresh cells built by `mkCells` carry exactly the given keys, in
order. -/
theorem mkCells_map_keyOf : ∀ (ks : List Key) (n : Nat),
    (Grid.mkCells n ks).map keyOf = ks
  | [], _ => rfl
  | k :: ks, n => by
      simp [Grid.mkCells, keyOf, mkCells_map_keyOf ks (n + 1)]

/-- `setFromCellKeys` swaps in exactly the fresh cells. -/
theorem getAllCells_setFromCellKeys (g : Grid) (ks : List Key) :
    (g.setFromCellKeys ks).getAllCells = Grid.mkCells g.nextId ks := by
  show ((Grid.mkCells g.nextId ks).map (fun c => (c.id, c))).map (·.2)
    = Grid.mkCells g.nextId ks
  rw [List.map_map]
  exact List.map_id _

/-- The grid's key list after `setFromCellKeys keys` is `keys` itself. -/
theorem map_keyOf_setFromCellKeys (g : Grid) (ks : List Key) :
    (g.setFromCellKeys ks).getAllCells.map keyOf = ks := by
  rw [getAllCells_setFromCellKeys, mkCells_map_keyOf]

namespace Scene

/-- `sanitizeSelection` only touches the two selection fields. -/
theorem sanitize_grid (st : Scene) : (sanitizeSelection st).1.grid = st.grid := rfl

theorem sanitize_mode (st : Scene) : (sanitizeSelection st).1.mode = st.mode := rfl

theorem sanitize_undoStack (st : Scene) :
    (sanitizeSelection st).1.undoStack = st.undoStack := rfl

theorem sanitize_redoStack (st : Scene) :
    (sanitizeSelection st).1.redoStack = st.redoStack := rfl

/-- After any commit, the occupancy key list is exactly the committed
key list. -/
theorem occKeys_commit (next : List Key) (ty : HType) (m : Option String)
    (st : Scene) : (commitOccupancy next ty m st).1.occKeys = next := by
  show ((sanitizeSelection _).1.grid.getAllCells.map keyOf) = next
  rw [sanitize_grid]
  exact map_keyOf_setFromCellKeys st.grid next

/-- Commits preserve the mode. -/
theorem mode_commit (next : List Key) (ty : HType) (m : Option String)
    (st : Scene) : (commitOccupancy next ty m st).1.mode = st.mode := rfl

/-- When the snapshots differ, the pushed action sits on top of the undo
stack and the redo stack is emptied. -/
theorem pushHistory_of_ne (before after : List Key) (ty : HType)
    (m : Option String) (undoS redoS : List HAction)
    (h : keySetEqb before after = false) :
    ∃ rest, pushHistory before after ty m undoS redoS
      = ({ ty := ty, before := before, after := after, meta := m } :: rest,
         [], [Ev.history true false]) := by
  unfold pushHistory
  rw [h]
  simp only [Bool.false_eq_true, if_false]
  by_cases hlen :
      ({ ty := ty, before := before, after := after, meta := m } :: undoS).length
        > MAX_HISTORY
  · cases undoS with
    | nil => simp [MAX_HISTORY] at hlen
    | cons b t =>
        refine ⟨(b :: t).dropLast, ?_⟩
        have hd : ({ ty := ty, before := before, after := after, meta := m }
              :: b :: t).dropLast
            = { ty := ty, before := before, after := after, meta := m }
              :: (b :: t).dropLast := rfl
        rw [if_pos hlen, hd]
        simp
  · refine ⟨undoS, ?_⟩
    rw [if_neg hlen]
    simp

/-- When the snapshots differ, the commit pushes the action on top of the
undo stack and empties the redo stack. -/
theorem commit_stacks_of_ne (next : List Key) (ty : HType) (m : Option String)
    (st : Scene) (h : keySetEqb st.occKeys next = false) :
    ∃ rest,
      (commitOccupancy next ty m st).1.undoStack
        = { ty := ty, before := st.occKeys, after := next, meta := m } :: rest ∧
      (commitOccupancy next ty m st).1.redoStack = [] := by
  obtain ⟨rest, hp⟩ := pushHistory_of_ne st.occKeys next ty m
    st.undoStack st.redoStack h
  refine ⟨rest, ?_, ?_⟩
  · show (pushHistory st.occKeys next ty m st.undoStack st.redoStack).1
      = _ :: rest
    rw [hp]
  · show (pushHistory st.occKeys next ty m st.undoStack st.redoStack).2.1 = []
    rw [hp]

end Scene

/-! ## Concrete states used by examples and witnesses -/

/-- A grid freshly populated with the given keys (ids `0, 1, ...`). -/
def mkGrid (ks : List Key) : Grid := (Grid.mk [] [] 0).setFromCellKeys ks

/-- A scene in edit mode with safe delete enabled over the given keys. -/
def mkScene (ks : List Key) : Scene :=
  { grid := mkGrid ks
    undoStack := []
    redoStack := []
    selectedCellKey := none
    multiSelected := []
    marqueeActive := false
    mode := Mode.edit
    safeDelete := true }

/-- The three-cell row `{(0,0),(1,0),(2,0)}` of the spec's connectivity
example; the cell at `(i, 0)` has id `i`. -/
def row3 : Scene := mkScene [(0, 0), (1, 0), (2, 0)]

/-- A 21-cell row, for the batch-confirmation threshold example. -/
def row21 : Scene :=
  let base := mkScene ((List.range 21).map (fun i => ((i : Int), 0)))
  { base with multiSelected := (List.range 21).map (fun i => ((i : Int), 0)) }

/-! ## Claims -/

/-- C6: for all coordinates, `addCellAt` on an occupied position returns
null and leaves both maps unchanged; otherwise it allocates a fresh id
distinct from every live id, inserts the cell into both maps, and returns
that id. -/
theorem addCellAt_contract (g : Grid) (gx gy : Int) (hwf : g.WF) :
    (g.isOccupied gx gy = true → g.addCellAt gx gy = (none, g)) ∧
    (g.isOccupied gx gy = false →
      (g.addCellAt gx gy).1 = some g.nextId ∧
      (∀ c ∈ g.getAllCells, c.id ≠ g.nextId) ∧
      (g.addCellAt gx gy).2.cellsById
        = g.cellsById ++ [(g.nextId, ⟨g.nextId, gx, gy⟩)] ∧
      (g.addCellAt gx gy).2.occupancy = g.occupancy ++ [((gx, gy), g.nextId)]) := by
  have hidfree : mapHas g.cellsById g.nextId = false := by
    simp only [mapHas, List.any_eq_false, decide_eq_true_eq]
    intro p hp
    obtain ⟨he, hlt⟩ := hwf p hp
    omega
  constructor
  · intro h
    simp only [Grid.isOccupied] at h
    simp [Grid.addCellAt, h]
  · intro h
    simp only [Grid.isOccupied] at h
    refine ⟨by simp [Grid.addCellAt, h], ?_, ?_, ?_⟩
    · intro c hc
      simp only [Grid.getAllCells, List.mem_map] at hc
      obtain ⟨p, hp, hpc⟩ := hc
      obtain ⟨_, hlt⟩ := hwf p hp
      rw [← hpc]
      omega
    · simp [Grid.addCellAt, h, mapSet, hidfree]
    · simp [Grid.addCellAt, h, mapSet]

/-- C6 witness: the contract instantiated on the three-cell row at the
free coordinate `(3, 0)`. -/
theorem addCellAt_contract_witness :
    (row3.grid.isOccupied 3 0 = true → row3.grid.addCellAt 3 0 = (none, row3.grid)) ∧
    (row3.grid.isOccupied 3 0 = false →
      (row3.grid.addCellAt 3 0).1 = some row3.grid.nextId ∧
      (∀ c ∈ row3.grid.getAllCells, c.id ≠ row3.grid.nextId) ∧
      (row3.grid.addCellAt 3 0).2.cellsById
        = row3.grid.cellsById ++ [(row3.grid.nextId, ⟨row3.grid.nextId, 3, 0⟩)] ∧
      (row3.grid.addCellAt 3 0).2.occupancy
        = row3.grid.occupancy ++ [((3, 0), row3.grid.nextId)]) :=
  addCellAt_contract row3.grid 3 0
    (show ∀ p ∈ row3.grid.cellsById, p.1 = p.2.id ∧ p.2.id < row3.grid.nextId
      from by decide)

/-- C3: `pushHistory` is a no-op (stacks untouched, so `canUndo` is
unchanged, and no notification) when the snapshots agree as sets;
otherwise it clears the redo stack and pushes the action, keeping only
the `MAX_HISTORY` most recent entries — the oldest entry is the one
evicted at capacity. -/
theorem pushHistory_contract (before after : List Key) (ty : HType)
    (m : Option String) (undoS redoS : List HAction) :
    (Scene.keySetEqb before after = true →
      Scene.pushHistory before after ty m undoS redoS = (undoS, redoS, [])) ∧
    (Scene.keySetEqb before after = false → undoS.length ≤ MAX_HISTORY →
      Scene.pushHistory before after ty m undoS redoS
        = (({ ty := ty, before := before, after := after, meta := m } :: undoS).take
            MAX_HISTORY,
           [], [Ev.history true false])) := by
  constructor
  · intro h
    simp [Scene.pushHistory, h]
  · intro h hlen
    unfold Scene.pushHistory
    rw [h]
    simp only [Bool.false_eq_true, if_false]
    by_cases hgt :
        ({ ty := ty, before := before, after := after, meta := m } :: undoS).length
          > MAX_HISTORY
    · rw [if_pos hgt]
      have h101 :
          ({ ty := ty, before := before, after := after, meta := m }
            :: undoS).length = MAX_HISTORY + 1 := by
        simp only [List.length_cons] at hgt ⊢
        omega
      have hd :
          ({ ty := ty, before := before, after := after, meta := m }
            :: undoS).dropLast
          = ({ ty := ty, before := before, after := after, meta := m }
            :: undoS).take MAX_HISTORY := by
        rw [List.dropLast_eq_take, h101]
        simp
      have hne :
          ({ ty := ty, before := before, after := after, meta := m }
            :: undoS).dropLast ≠ [] := by
        intro hc
        have := congrArg List.length hc
        rw [List.length_dropLast, h101] at this
        simp [MAX_HISTORY] at this
      rw [hd] at hne ⊢
      simp [hne]
    · rw [if_neg hgt]
      have hle :
          ({ ty := ty, before := before, after := after, meta := m }
            :: undoS).length ≤ MAX_HISTORY := Nat.not_lt.mp hgt
      rw [List.take_of_length_le hle]
      simp

/-- C3 witness: a no-op record with equal snapshots, and an effective
record with distinct snapshots, both on empty stacks. -/
theorem pushHistory_contract_witness :
    Scene.pushHistory [(0, 0)] [(0, 0)] HType.add none [] [] = ([], [], []) ∧
    Scene.pushHistory [(0, 0)] [(0, 0), (1, 0)] HType.add none [] []
      = ([{ ty := HType.add, before := [(0, 0)], after := [(0, 0), (1, 0)],
            meta := none }], [], [Ev.history true false]) := by
  constructor
  · exact (pushHistory_contract [(0, 0)] [(0, 0)] HType.add none [] []).1
      (by decide)
  · have h := (pushHistory_contract [(0, 0)] [(0, 0), (1, 0)] HType.add
      none [] []).2 (by decide) (by decide)
    simpa using h

/-- Unfolding equation for `undo` when it acts. -/
theorem undo_eq (st : Scene) (act : HAction) (rest : List HAction)
    (hmode : st.mode = Mode.edit) (hstack : st.undoStack = act :: rest) :
    Scene.undo st
      = ((Scene.sanitizeSelection
            { st with
              undoStack := rest
              redoStack := act :: st.redoStack
              grid := st.grid.setFromCellKeys act.before }).1,
         [(Scene.sanitizeSelection
            { st with
              undoStack := rest
              redoStack := act :: st.redoStack
              grid := st.grid.setFromCellKeys act.before }).2,
          Ev.history (!rest.isEmpty) (!(act :: st.redoStack).isEmpty)]) := by
  simp [Scene.undo, hmode, hstack, Scene.sanitizeSelection]

/-- Unfolding equation for `redo` when it acts. -/
theorem redo_eq (st : Scene) (act : HAction) (rest : List HAction)
    (hmode : st.mode = Mode.edit) (hstack : st.redoStack = act :: rest) :
    Scene.redo st
      = ((Scene.sanitizeSelection
            { st with
              redoStack := rest
              undoStack := act :: st.undoStack
              grid := st.grid.setFromCellKeys act.after }).1,
         [(Scene.sanitizeSelection
            { st with
              redoStack := rest
              undoStack := act :: st.undoStack
              grid := st.grid.setFromCellKeys act.after }).2,
          Ev.history (!(act :: st.undoStack).isEmpty) (!rest.isEmpty)]) := by
  simp [Scene.redo, hmode, hstack, Scene.sanitizeSelection]

/-- C2: a committed, recorded mutation with snapshots `(before, after)`
is undone exactly — `undo()` right after restores the occupancy key set
to `before`, and `redo()` right after that restores it to `after`. -/
theorem undo_redo_roundtrip (st : Scene) (next : List Key) (ty : HType)
    (m : Option String) (hmode : st.mode = Mode.edit)
    (hch : Scene.keySetEqb st.occKeys next = false) :
    (Scene.undo (Scene.commitOccupancy next ty m st).1).1.occSet = st.occSet ∧
    (Scene.redo (Scene.undo (Scene.commitOccupancy next ty m st).1).1).1.occSet
      = next.toFinset := by
  obtain ⟨rest, hu, hr⟩ := Scene.commit_stacks_of_ne next ty m st hch
  have hm1 : (Scene.commitOccupancy next ty m st).1.mode = Mode.edit := by
    rw [Scene.mode_commit]; exact hmode
  have hundo := undo_eq (Scene.commitOccupancy next ty m st).1 _ rest hm1 hu
  have h1 : (Scene.undo (Scene.commitOccupancy next ty m st).1).1.occKeys
      = st.occKeys := by
    rw [hundo]
    show (Scene.sanitizeSelection _).1.grid.getAllCells.map keyOf = _
    rw [Scene.sanitize_grid]
    exact map_keyOf_setFromCellKeys _ _
  have hm2 : (Scene.undo (Scene.commitOccupancy next ty m st).1).1.mode
      = Mode.edit := by
    rw [hundo, Scene.sanitize_mode]; exact hm1
  have hr2 : (Scene.undo (Scene.commitOccupancy next ty m st).1).1.redoStack
      = { ty := ty, before := st.occKeys, after := next, meta := m } :: [] := by
    rw [hundo, Scene.sanitize_redoStack]
    show _ :: (Scene.commitOccupancy next ty m st).1.redoStack = _
    rw [hr]
  have hredo := redo_eq (Scene.undo (Scene.commitOccupancy next ty m st).1).1
    _ [] hm2 hr2
  have h2 : (Scene.redo
        (Scene.undo (Scene.commitOccupancy next ty m st).1).1).1.occKeys
      = next := by
    rw [hredo]
    show (Scene.sanitizeSelection _).1.grid.getAllCells.map keyOf = _
    rw [Scene.sanitize_grid]
    exact map_keyOf_setFromCellKeys _ _
  constructor
  · show (Scene.undo (Scene.commitOccupancy next ty m st).1).1.occKeys.toFinset
      = st.occKeys.toFinset
    rw [h1]
  · show (Scene.redo
        (Scene.undo (Scene.commitOccupancy next ty m st).1).1).1.occKeys.toFinset
      = next.toFinset
    rw [h2]

/-- C2 witness: committing `{(0,0),(1,0),(2,0),(3,0)}` over the
three-cell row, then undoing and redoing. -/
theorem undo_redo_roundtrip_witness :
    (Scene.undo (Scene.commitOccupancy [(0, 0), (1, 0), (2, 0), (3, 0)]
        HType.add none row3).1).1.occSet = row3.occSet ∧
    (Scene.redo (Scene.undo (Scene.commitOccupancy
        [(0, 0), (1, 0), (2, 0), (3, 0)] HType.add none row3).1).1).1.occSet
      = ([(0, 0), (1, 0), (2, 0), (3, 0)] : List Key).toFinset :=
  undo_redo_roundtrip row3 [(0, 0), (1, 0), (2, 0), (3, 0)] HType.add none
    rfl (by decide)

/-- With safe delete on, a non-empty disconnected result fails the
deletion guard. -/
theorem canApply_false (st : Scene) (next : List Key)
    (hsafe : st.safeDelete = true) (hne : next ≠ [])
    (hconn : isConnected next = false) :
    Scene.canApplyDeletion st next = false := by
  simp [Scene.canApplyDeletion, hsafe, hconn, List.isEmpty_eq_false.mpr hne]

/-- `removeCell` under the blocked-connectivity condition: returns
`false`, keeps the grid, fires the delete-blocked notification — and
clears a matching single selection. -/
theorem removeCell_blocked (st : Scene) (id : Nat) (cell : Cell)
    (hmode : st.mode = Mode.edit) (hsafe : st.safeDelete = true)
    (hget : st.grid.getCell id = some cell)
    (hne : st.occKeys.erase (keyOf cell) ≠ [])
    (hconn : isConnected (st.occKeys.erase (keyOf cell)) = false) :
    Scene.removeCell id st
      = (false,
         if st.selectedCellKey = some id
           then { st with selectedCellKey := none } else st,
         [Ev.deleteBlocked blockedMsg]) := by
  by_cases hsel : st.selectedCellKey = some id
  · have hca : Scene.canApplyDeletion { st with selectedCellKey := none }
        (Scene.occKeys { st with selectedCellKey := none } |>.erase (keyOf cell))
        = false :=
      canApply_false _ _ hsafe hne hconn
    rw [hmode] at hca
    simp [Scene.removeCell, hmode, hget, hsel, hca]
  · have hca : Scene.canApplyDeletion st (st.occKeys.erase (keyOf cell))
        = false :=
      canApply_false _ _ hsafe hne hconn
    simp [Scene.removeCell, hmode, hget, hsel, hca]

/-- `removeSelectedCells` blocked on the batch path. -/
theorem removeSelected_blocked_multi (st : Scene) (hasCb : Bool)
    (hmode : st.mode = Mode.edit) (hsafe : st.safeDelete = true)
    (hms : st.multiSelected.length > 0)
    (hne : Scene.batchNext st ≠ [])
    (hconn : isConnected (Scene.batchNext st) = false) :
    Scene.removeSelectedCells hasCb st
      = Scene.DelResult.blocked [Ev.deleteBlocked blockedMsg] := by
  have hca : Scene.canApplyDeletion st (Scene.batchNext st) = false :=
    canApply_false _ _ hsafe hne hconn
  simp [Scene.removeSelectedCells, hmode, hms, hca]

/-- `removeSelectedCells` blocked on the single-selection path. -/
theorem removeSelected_blocked_single (st : Scene) (hasCb : Bool)
    (selId : Nat) (cell : Cell)
    (hmode : st.mode = Mode.edit) (hsafe : st.safeDelete = true)
    (hms : st.multiSelected = [])
    (hsel : st.selectedCellKey = some selId)
    (hget : st.grid.getCell selId = some cell)
    (hne : st.occKeys.erase (keyOf cell) ≠ [])
    (hconn : isConnected (st.occKeys.erase (keyOf cell)) = false) :
    Scene.removeSelectedCells hasCb st
      = Scene.DelResult.blocked [Ev.deleteBlocked blockedMsg] := by
  have hca : Scene.canApplyDeletion st (st.occKeys.erase (keyOf cell)) = false :=
    canApply_false _ _ hsafe hne hconn
  simp [Scene.removeSelectedCells, hmode, hms, hsel, hget, hca]

/-- C1: with safe delete enabled, every removal whose resulting occupancy
would be non-empty and disconnected under 4-connectivity is rejected — no
mutation, `false`/blocked result, delete-blocked notification — on the
single-cell path and on both batch paths; concretely, on
`{(0,0),(1,0),(2,0)}` removing `(1,0)` is rejected while removing
`(2,0)` succeeds and leaves `{(0,0),(1,0)}`. -/
theorem safe_delete_guard :
    (∀ (st : Scene) (id : Nat) (cell : Cell),
      st.mode = Mode.edit → st.safeDelete = true →
      st.grid.getCell id = some cell →
      st.occKeys.erase (keyOf cell) ≠ [] →
      isConnected (st.occKeys.erase (keyOf cell)) = false →
      (Scene.removeCell id st).1 = false ∧
      (Scene.removeCell id st).2.1.occSet = st.occSet ∧
      (Scene.removeCell id st).2.2 = [Ev.deleteBlocked blockedMsg]) ∧
    (∀ (st : Scene) (hasCb : Bool),
      st.mode = Mode.edit → st.safeDelete = true →
      st.multiSelected.length > 0 →
      Scene.batchNext st ≠ [] →
      isConnected (Scene.batchNext st) = false →
      Scene.removeSelectedCells hasCb st
        = Scene.DelResult.blocked [Ev.deleteBlocked blockedMsg]) ∧
    (∀ (st : Scene) (hasCb : Bool) (selId : Nat) (cell : Cell),
      st.mode = Mode.edit → st.safeDelete = true →
      st.multiSelected = [] →
      st.selectedCellKey = some selId →
      st.grid.getCell selId = some cell →
      st.occKeys.erase (keyOf cell) ≠ [] →
      isConnected (st.occKeys.erase (keyOf cell)) = false →
      Scene.removeSelectedCells hasCb st
        = Scene.DelResult.blocked [Ev.deleteBlocked blockedMsg]) ∧
    ((Scene.removeCell 1 row3).1 = false ∧
      (Scene.removeCell 1 row3).2.1.occSet = row3.occSet ∧
      (Scene.removeCell 1 row3).2.2 = [Ev.deleteBlocked blockedMsg]) ∧
    ((Scene.removeCell 2 row3).1 = true ∧
      (Scene.removeCell 2 row3).2.1.occSet
        = ({(0, 0), (1, 0)} : Finset Key)) := by
  refine ⟨?_, ?_, ?_, ?_, ?_⟩
  · intro st id cell hmode hsafe hget hne hconn
    rw [removeCell_blocked st id cell hmode hsafe hget hne hconn]
    refine ⟨rfl, ?_, rfl⟩
    by_cases hsel : st.selectedCellKey = some id
    · rw [if_pos hsel]; rfl
    · rw [if_neg hsel]
  · exact fun st hasCb hmode hsafe hms hne hconn =>
      removeSelected_blocked_multi st hasCb hmode hsafe hms hne hconn
  · exact fun st hasCb selId cell hmode hsafe hms hsel hget hne hconn =>
      removeSelected_blocked_single st hasCb selId cell hmode hsafe hms hsel
        hget hne hconn
  · exact ⟨by decide, by decide, by decide⟩
  · exact ⟨by decide, by decide⟩

/-- C1 witness: the guard applied to the three-cell row, removing the
middle cell (id 1 at `(1,0)`). -/
theorem safe_delete_guard_witness :
    (Scene.removeCell 1 row3).1 = false ∧
    (Scene.removeCell 1 row3).2.1.occSet = row3.occSet ∧
    (Scene.removeCell 1 row3).2.2 = [Ev.deleteBlocked blockedMsg] :=
  safe_delete_guard.1 row3 1 ⟨1, 1, 0⟩ rfl rfl (by decide) (by decide)
    (by decide)

/-- C10: when a safe-delete rejection hits `removeCell(id)` and `id` is
the current single selection, the call still clears the selection: it
returns `false`, the grid (and so the occupancy set) is untouched, but
`selectedCellKey` has become `null`. -/
theorem rejected_remove_clears_selection (st : Scene) (id : Nat) (cell : Cell)
    (hmode : st.mode = Mode.edit) (hsafe : st.safeDelete = true)
    (hsel : st.selectedCellKey = some id)
    (hget : st.grid.getCell id = some cell)
    (hne : st.occKeys.erase (keyOf cell) ≠ [])
    (hconn : isConnected (st.occKeys.erase (keyOf cell)) = false) :
    Scene.removeCell id st
      = (false, { st with selectedCellKey := none },
         [Ev.deleteBlocked blockedMsg]) := by
  rw [removeCell_blocked st id cell hmode hsafe hget hne hconn, if_pos hsel]

/-- C10 witness: the three-cell row with the middle cell selected. -/
theorem rejected_remove_clears_selection_witness :
    Scene.removeCell 1 { row3 with selectedCellKey := some 1 }
      = (false,
         { { row3 with selectedCellKey := some 1 } with selectedCellKey := none },
         [Ev.deleteBlocked blockedMsg]) :=
  rejected_remove_clears_selection { row3 with selectedCellKey := some 1 }
    1 ⟨1, 1, 0⟩ rfl rfl rfl (by decide) (by decide) (by decide)

/-- `sanitizeSelection` establishes the sanitized-selection invariant and
reports the surviving multi-selection count. -/
theorem sanitize_spec (st : Scene) :
    (∀ id, (Scene.sanitizeSelection st).1.selectedCellKey = some id →
      ((Scene.sanitizeSelection st).1.grid.getCell id).isSome = true) ∧
    (∀ k ∈ (Scene.sanitizeSelection st).1.multiSelected,
      (Scene.sanitizeSelection st).1.grid.isOccupied k.1 k.2 = true) ∧
    (Scene.sanitizeSelection st).2
      = Ev.multiSel (Scene.sanitizeSelection st).1.multiSelected.length := by
  refine ⟨?_, ?_, rfl⟩
  · intro id hid
    show (st.grid.getCell id).isSome = true
    revert hid
    show (match st.selectedCellKey with
      | some j => if (st.grid.getCell j).isSome then some j else none
      | none => none) = some id → _
    cases hsel : st.selectedCellKey with
    | none => simp
    | some j =>
        by_cases hg : (st.grid.getCell j).isSome
        · simp only [hg, if_pos, Option.some.injEq]
          intro hji
          rw [← hji]
          exact hg
        · simp [hg]
  · intro k hk
    have hk2 : k ∈ st.multiSelected.filter
        (fun k2 => st.grid.isOccupied k2.1 k2.2) := hk
    exact @List.of_mem_filter _ (fun k2 => st.grid.isOccupied k2.1 k2.2) k
      st.multiSelected hk2

/-- C9: after every committed grid mutation — any `commitOccupancy`
(add, remove, batch, clear all funnel through it) and every acting
`undo`/`redo` — the selection is sanitized: a surviving single selection
refers to an existing cell, every surviving multi-selected key is
occupied, and the multi-selection-count notification reports the
surviving size. -/
theorem mutations_sanitize_selection :
    (∀ (next : List Key) (ty : HType) (m : Option String) (st : Scene),
      (∀ id, (Scene.commitOccupancy next ty m st).1.selectedCellKey = some id →
        ((Scene.commitOccupancy next ty m st).1.grid.getCell id).isSome = true) ∧
      (∀ k ∈ (Scene.commitOccupancy next ty m st).1.multiSelected,
        (Scene.commitOccupancy next ty m st).1.grid.isOccupied k.1 k.2 = true) ∧
      Ev.multiSel (Scene.commitOccupancy next ty m st).1.multiSelected.length
        ∈ (Scene.commitOccupancy next ty m st).2) ∧
    (∀ (st : Scene) (act : HAction) (rest : List HAction),
      st.mode = Mode.edit → st.undoStack = act :: rest →
      (∀ id, (Scene.undo st).1.selectedCellKey = some id →
        ((Scene.undo st).1.grid.getCell id).isSome = true) ∧
      (∀ k ∈ (Scene.undo st).1.multiSelected,
        (Scene.undo st).1.grid.isOccupied k.1 k.2 = true) ∧
      Ev.multiSel (Scene.undo st).1.multiSelected.length ∈ (Scene.undo st).2) ∧
    (∀ (st : Scene) (act : HAction) (rest : List HAction),
      st.mode = Mode.edit → st.redoStack = act :: rest →
      (∀ id, (Scene.redo st).1.selectedCellKey = some id →
        ((Scene.redo st).1.grid.getCell id).isSome = true) ∧
      (∀ k ∈ (Scene.redo st).1.multiSelected,
        (Scene.redo st).1.grid.isOccupied k.1 k.2 = true) ∧
      Ev.multiSel (Scene.redo st).1.multiSelected.length ∈ (Scene.redo st).2) := by
  refine ⟨?_, ?_, ?_⟩
  · intro next ty m st
    have hc1 : (Scene.commitOccupancy next ty m st).1
        = (Scene.sanitizeSelection
            { st with
              grid := st.grid.setFromCellKeys next
              undoStack := (Scene.pushHistory st.occKeys next ty m
                st.undoStack st.redoStack).1
              redoStack := (Scene.pushHistory st.occKeys next ty m
                st.undoStack st.redoStack).2.1 }).1 := rfl
    have hc2 : (Scene.commitOccupancy next ty m st).2
        = (Scene.pushHistory st.occKeys next ty m st.undoStack st.redoStack).2.2
          ++ [(Scene.sanitizeSelection
            { st with
              grid := st.grid.setFromCellKeys next
              undoStack := (Scene.pushHistory st.occKeys next ty m
                st.undoStack st.redoStack).1
              redoStack := (Scene.pushHistory st.occKeys next ty m
                st.undoStack st.redoStack).2.1 }).2] := rfl
    refine ⟨?_, ?_, ?_⟩
    · rw [hc1]; exact (sanitize_spec _).1
    · rw [hc1]; exact (sanitize_spec _).2.1
    · rw [hc1, hc2, (sanitize_spec _).2.2]
      exact List.mem_append_right _ (List.mem_singleton.mpr rfl)
  · intro st act rest hmode hstack
    rw [undo_eq st act rest hmode hstack]
    refine ⟨(sanitize_spec _).1, (sanitize_spec _).2.1, ?_⟩
    show Ev.multiSel _ ∈ [(Scene.sanitizeSelection _).2, _]
    rw [(sanitize_spec _).2.2]
    exact List.mem_cons_self _ _
  · intro st act rest hmode hstack
    rw [redo_eq st act rest hmode hstack]
    refine ⟨(sanitize_spec _).1, (sanitize_spec _).2.1, ?_⟩
    show Ev.multiSel _ ∈ [(Scene.sanitizeSelection _).2, _]
    rw [(sanitize_spec _).2.2]
    exact List.mem_cons_self _ _

/-- A sample history action over the three-cell row. -/
def act0 : HAction :=
  { ty := HType.add, before := [(0, 0)], after := [(0, 0), (1, 0), (2, 0)],
    meta := none }

/-- The three-cell row with one undoable action. -/
def row3undo : Scene := { row3 with undoStack := [act0] }

/-- The three-cell row with one redoable action. -/
def row3redo : Scene := { row3 with redoStack := [act0] }

/-- C9 witness: a commit of `{(0,0)}` over the three-cell row, plus an
acting undo and an acting redo, each reporting the surviving
multi-selection count. -/
theorem mutations_sanitize_selection_witness :
    (∀ id, (Scene.commitOccupancy [(0, 0)] HType.clear none row3).1.selectedCellKey
        = some id →
      ((Scene.commitOccupancy [(0, 0)] HType.clear none
        row3).1.grid.getCell id).isSome = true) ∧
    Ev.multiSel (Scene.commitOccupancy [(0, 0)] HType.clear none
        row3).1.multiSelected.length
      ∈ (Scene.commitOccupancy [(0, 0)] HType.clear none row3).2 ∧
    Ev.multiSel (Scene.undo row3undo).1.multiSelected.length
      ∈ (Scene.undo row3undo).2 ∧
    Ev.multiSel (Scene.redo row3redo).1.multiSelected.length
      ∈ (Scene.redo row3redo).2 :=
  ⟨(mutations_sanitize_selection.1 [(0, 0)] HType.clear none row3).1,
   (mutations_sanitize_selection.1 [(0, 0)] HType.clear none row3).2.2,
   (mutations_sanitize_selection.2.1 row3undo act0 [] rfl rfl).2.2,
   (mutations_sanitize_selection.2.2 row3redo act0 [] rfl rfl).2.2⟩

/-- C5: batch deletions (multi-select removal, and full clear) with a
confirmation callback installed stage behind the callback — which
receives exactly the affected count `n` — whenever `n` exceeds the
threshold 20, the state being mutated only by the pending `perform()`
commit; at or below 20 the commit is immediate. -/
theorem batch_confirmation_threshold :
    (∀ st : Scene, st.mode = Mode.edit →
      st.multiSelected.length > 0 →
      Scene.canApplyDeletion st (Scene.batchNext st) = true →
      (((Scene.batchIds st).length > DELETE_CONFIRM_THRESHOLD →
        ∃ pending, Scene.removeSelectedCells true st
            = Scene.DelResult.staged (Scene.batchIds st).length pending ∧
          pending.1.occSet = (Scene.batchNext st).toFinset ∧
          pending.1.multiSelected = []) ∧
      ((Scene.batchIds st).length ≤ DELETE_CONFIRM_THRESHOLD →
        ∃ stc evs, Scene.removeSelectedCells true st
            = Scene.DelResult.committed stc evs ∧
          stc.occSet = (Scene.batchNext st).toFinset))) ∧
    (∀ st : Scene, st.mode = Mode.edit →
      ((st.occKeys.length > DELETE_CONFIRM_THRESHOLD →
        ∃ pending, Scene.clearOp true st
            = Scene.DelResult.staged st.occKeys.length pending ∧
          pending.1.occSet = ∅) ∧
      (st.occKeys.length ≤ DELETE_CONFIRM_THRESHOLD →
        ∃ stc evs, Scene.clearOp true st = Scene.DelResult.committed stc evs ∧
          stc.occSet = ∅))) := by
  constructor
  · intro st hmode hms hca
    constructor
    · intro hn
      simp only [Scene.removeSelectedCells, hmode, hms, hca, ne_eq,
        not_true_eq_false, Bool.false_eq_true, if_false, if_true,
        Bool.not_true, gt_iff_lt, if_pos hms]
      simp only [Scene.performBatch, decide_eq_true_eq, hn,
        decide_True, Bool.and_true, if_pos (decide_eq_true hn)]
      refine ⟨_, rfl, ?_, rfl⟩
      show (Scene.commitOccupancy _ _ _ _).1.occKeys.toFinset = _
      rw [Scene.occKeys_commit]
    · intro hn
      simp only [Scene.removeSelectedCells, hmode, hms, hca, ne_eq,
        not_true_eq_false, Bool.false_eq_true, if_false, if_true,
        Bool.not_true, gt_iff_lt, if_pos hms]
      have hfalse : ((Scene.batchIds st).length > DELETE_CONFIRM_THRESHOLD) = False :=
        eq_false (Nat.not_lt.mpr hn)
      simp only [Scene.performBatch, hfalse, decide_False, Bool.false_and,
        Bool.false_eq_true, if_false]
      refine ⟨_, _, rfl, ?_⟩
      show (Scene.commitOccupancy _ _ _ _).1.occKeys.toFinset = _
      rw [Scene.occKeys_commit]
  · intro st hmode
    constructor
    · intro hn
      simp only [Scene.clearOp, hmode, ne_eq, not_true_eq_false,
        Bool.false_eq_true, if_false, hn, decide_True, Bool.and_true,
        if_pos (decide_eq_true hn)]
      refine ⟨_, rfl, ?_⟩
      show (Scene.commitOccupancy _ _ _ _).1.occKeys.toFinset = _
      rw [Scene.occKeys_commit]
      rfl
    · intro hn
      have hfalse : (st.occKeys.length > DELETE_CONFIRM_THRESHOLD) = False :=
        eq_false (Nat.not_lt.mpr hn)
      simp only [Scene.clearOp, hmode, ne_eq, not_true_eq_false,
        Bool.false_eq_true, if_false, hfalse, decide_False, Bool.false_and]
      refine ⟨_, _, rfl, ?_⟩
      show (Scene.commitOccupancy _ _ _ _).1.occKeys.toFinset = _
      rw [Scene.occKeys_commit]
      rfl

/-- C5 witness: the fully-selected 21-cell row stages with `n = 21`;
the three-cell row with one selected end cell commits immediately; a
3-cell clear commits immediately while a 21-cell clear stages. -/
theorem batch_confirmation_threshold_witness :
    (∃ pending, Scene.removeSelectedCells true row21
        = Scene.DelResult.staged (Scene.batchIds row21).length pending ∧
      pending.1.occSet = (Scene.batchNext row21).toFinset ∧
      pending.1.multiSelected = []) ∧
    (∃ stc evs, Scene.removeSelectedCells true
          { row3 with multiSelected := [(2, 0)] }
        = Scene.DelResult.committed stc evs ∧
      stc.occSet
        = (Scene.batchNext { row3 with multiSelected := [(2, 0)] }).toFinset) ∧
    (∃ pending, Scene.clearOp true row21
        = Scene.DelResult.staged row21.occKeys.length pending ∧
      pending.1.occSet = ∅) ∧
    (∃ stc evs, Scene.clearOp true row3 = Scene.DelResult.committed stc evs ∧
      stc.occSet = ∅) :=
  ⟨(batch_confirmation_threshold.1 row21 rfl (by decide) (by decide)).1
      (by decide),
   (batch_confirmation_threshold.1 { row3 with multiSelected := [(2, 0)] }
      rfl (by decide) (by decide)).2 (by decide),
   (batch_confirmation_threshold.2 row21 rfl).1 (by decide),
   (batch_confirmation_threshold.2 row3 rfl).2 (by decide)⟩

/-- C4 counterexample: in view mode, `addCellAt` is not a no-op — on the
three-cell row it returns `true` and grows the occupancy set, because the
source's `addCellAtRef.current` carries no edit-mode guard. -/
theorem view_mode_gating_counterexample :
    (Scene.addCellAt 3 0 (Scene.setMode Mode.view row3)).1 = true ∧
    (Scene.addCellAt 3 0 (Scene.setMode Mode.view row3)).2.1.occSet
      ≠ (Scene.setMode Mode.view row3).occSet := by
  exact ⟨by decide, by decide⟩

/-- C4 (amended): outside edit mode every mutation-producing operation
except `addCellAt` — `removeCell`, `removeSelectedCells`, `clear`,
the double-tap and arrow-key toggles, `undo`, `redo` — is a no-op
(`removeCell` returning `false`) that leaves occupancy and history
unchanged, while the pure selection operations (tap select, escape,
marquee release) behave identically in both modes. -/
theorem view_mode_gating :
    (∀ (st : Scene) (id : Nat), st.mode = Mode.view →
      Scene.removeCell id st = (false, st, [])) ∧
    (∀ (st : Scene) (hasCb : Bool), st.mode = Mode.view →
      Scene.removeSelectedCells hasCb st = Scene.DelResult.noop) ∧
    (∀ (st : Scene) (hasCb : Bool), st.mode = Mode.view →
      Scene.clearOp hasCb st = Scene.DelResult.noop) ∧
    (∀ st : Scene, st.mode = Mode.view → Scene.undo st = (st, [])) ∧
    (∀ st : Scene, st.mode = Mode.view → Scene.redo st = (st, [])) ∧
    (∀ (st : Scene) (gx gy : Int), st.mode = Mode.view →
      Scene.onDoubleTap gx gy st = (st, [])) ∧
    (∀ (st : Scene) (dx dy : Int), st.mode = Mode.view →
      Scene.onArrowKey dx dy st = (st, [])) ∧
    (∀ (st : Scene) (m : Mode) (gx gy : Int) (shift : Bool),
      Scene.onTapSelect gx gy shift (Scene.setMode m st)
        = (Scene.setMode m (Scene.onTapSelect gx gy shift st).1,
           (Scene.onTapSelect gx gy shift st).2)) ∧
    (∀ (st : Scene) (m : Mode),
      Scene.onEscape (Scene.setMode m st)
        = (Scene.setMode m (Scene.onEscape st).1, (Scene.onEscape st).2)) ∧
    (∀ (st : Scene) (m : Mode) (minX minY maxX maxY cw ch : ℚ)
        (gb : Int × Int × Int × Int),
      Scene.onMarqueeRelease minX minY maxX maxY cw ch gb (Scene.setMode m st)
        = (Scene.setMode m
            (Scene.onMarqueeRelease minX minY maxX maxY cw ch gb st).1,
           (Scene.onMarqueeRelease minX minY maxX maxY cw ch gb st).2)) := by
  refine ⟨?_, ?_, ?_, ?_, ?_, ?_, ?_, ?_, ?_, ?_⟩
  · intro st id hmode
    simp [Scene.removeCell, hmode]
  · intro st hasCb hmode
    simp [Scene.removeSelectedCells, hmode]
  · intro st hasCb hmode
    simp [Scene.clearOp, hmode]
  · intro st hmode
    simp [Scene.undo, hmode]
  · intro st hmode
    simp [Scene.redo, hmode]
  · intro st gx gy hmode
    simp [Scene.onDoubleTap, hmode]
  · intro st dx dy hmode
    cases hsel : st.selectedCellKey with
    | none => simp [Scene.onArrowKey, hsel]
    | some selId =>
        cases hget : st.grid.getCell selId with
        | none => simp [Scene.onArrowKey, hsel, hget]
        | some cell => simp [Scene.onArrowKey, hsel, hget, hmode]
  · intro st m gx gy shift
    dsimp only [Scene.onTapSelect, Scene.cellAt, Scene.setMode]
    cases hc : st.grid.getAllCells.find? (fun c => c.gx = gx && c.gy = gy) with
    | none => simp [hc]
    | some c => cases shift <;> simp [hc]
  · intro st m
    cases hm : st.marqueeActive <;>
      by_cases hlen : st.multiSelected.length > 0 <;>
        simp [Scene.onEscape, Scene.setMode, hm, hlen]
  · intro st m minX minY maxX maxY cw ch gb
    rfl

/-- C4 witness: the view-mode no-ops instantiated on the three-cell row
in view mode, and tap-select mode-independence at `(0,0)`. -/
theorem view_mode_gating_witness :
    Scene.removeCell 0 (Scene.setMode Mode.view row3)
      = (false, Scene.setMode Mode.view row3, []) ∧
    Scene.removeSelectedCells true (Scene.setMode Mode.view row3)
      = Scene.DelResult.noop ∧
    Scene.clearOp true (Scene.setMode Mode.view row3)
      = Scene.DelResult.noop ∧
    Scene.undo (Scene.setMode Mode.view row3)
      = (Scene.setMode Mode.view row3, []) ∧
    Scene.redo (Scene.setMode Mode.view row3)
      = (Scene.setMode Mode.view row3, []) ∧
    Scene.onDoubleTap 0 0 (Scene.setMode Mode.view row3)
      = (Scene.setMode Mode.view row3, []) ∧
    Scene.onArrowKey 1 0 (Scene.setMode Mode.view row3)
      = (Scene.setMode Mode.view row3, []) ∧
    Scene.onTapSelect 0 0 false (Scene.setMode Mode.view row3)
      = (Scene.setMode Mode.view (Scene.onTapSelect 0 0 false row3).1,
         (Scene.onTapSelect 0 0 false row3).2) :=
  ⟨view_mode_gating.1 _ 0 rfl,
   view_mode_gating.2.1 _ true rfl,
   view_mode_gating.2.2.1 _ true rfl,
   view_mode_gating.2.2.2.1 _ rfl,
   view_mode_gating.2.2.2.2.1 _ rfl,
   view_mode_gating.2.2.2.2.2.1 _ 0 0 rfl,
   view_mode_gating.2.2.2.2.2.2.1 _ 1 0 rfl,
   view_mode_gating.2.2.2.2.2.2.2.1 row3 Mode.view 0 0 false⟩

/-- C7: `zoomAboutScreenPoint` keeps the world coordinate under the
screen point fixed whenever the multiplied scale needs no clamping, and
its resulting scale always lies within `[ZOOM_MIN, ZOOM_MAX]`. -/
theorem zoom_about_point_invariant (st : CameraState) (sx sy f w h : ℚ) :
    (ZOOM_MIN ≤ st.s * f → st.s * f ≤ ZOOM_MAX →
      screenToWorld sx sy (zoomAboutScreenPoint st sx sy f w h) w h
        = screenToWorld sx sy st w h) ∧
    ZOOM_MIN ≤ (zoomAboutScreenPoint st sx sy f w h).s ∧
    (zoomAboutScreenPoint st sx sy f w h).s ≤ ZOOM_MAX := by
  refine ⟨?_, ?_, ?_⟩
  · intro h1 h2
    unfold zoomAboutScreenPoint clampZoom screenToWorld
    dsimp only
    simp only [Prod.mk.injEq]
    constructor <;> ring
  · show ZOOM_MIN ≤ max ZOOM_MIN (min ZOOM_MAX (st.s * f))
    exact le_max_left _ _
  · show max ZOOM_MIN (min ZOOM_MAX (st.s * f)) ≤ ZOOM_MAX
    apply max_le
    · norm_num [ZOOM_MIN, ZOOM_MAX]
    · exact min_le_left _ _

/-- C7 witness: zooming by factor 2 about screen point `(100, 50)` from
scale 1 (no clamping: `1 * 2 ∈ [1/2, 5/2]`). -/
theorem zoom_about_point_invariant_witness :
    screenToWorld 100 50
        (zoomAboutScreenPoint ⟨3, 4, 1⟩ 100 50 2 800 600) 800 600
      = screenToWorld 100 50 ⟨3, 4, 1⟩ 800 600 ∧
    ZOOM_MIN ≤ (zoomAboutScreenPoint ⟨3, 4, 1⟩ 100 50 2 800 600).s ∧
    (zoomAboutScreenPoint ⟨3, 4, 1⟩ 100 50 2 800 600).s ≤ ZOOM_MAX :=
  ⟨(zoom_about_point_invariant ⟨3, 4, 1⟩ 100 50 2 800 600).1
      (by norm_num [ZOOM_MIN]) (by norm_num [ZOOM_MAX]),
   (zoom_about_point_invariant ⟨3, 4, 1⟩ 100 50 2 800 600).2.1,
   (zoom_about_point_invariant ⟨3, 4, 1⟩ 100 50 2 800 600).2.2⟩

/-- C8 counterexample: the raw center offset is the negated screen delta
divided by the scale, not the screen delta divided by the scale as the
claim words it: with scale 1, center target `(0,0)`, an `8`-pixel screen
delta (well within the free radius `100`) moves the center to `-8`,
whereas the claim's reading predicts `+8`. -/
theorem pan_rubber_counterexample :
    (applyPanWithRubber ⟨0, 0, 1⟩ 8 0 800 600 (0, 0)).cx = -8 ∧
    (applyPanWithRubberClaimed ⟨0, 0, 1⟩ 8 0 800 600 (0, 0)).cx = 8 ∧
    (applyPanWithRubber ⟨0, 0, 1⟩ 8 0 800 600 (0, 0)).cx
      ≠ (applyPanWithRubberClaimed ⟨0, 0, 1⟩ 8 0 800 600 (0, 0)).cx := by
  refine ⟨?_, ?_, ?_⟩ <;>
    norm_num [applyPanWithRubber, applyPanWithRubberClaimed, applyRubber,
      freeRadiusFactor, rubberConstant]

/-- C8 (amended): `applyPanWithRubber` converts the screen delta to a
world delta by negating it and dividing by the scale `s`; per axis
independently, a raw new center whose offset from the center target is at
most the free radius (`0.25` of the half-viewport over `s`) is adopted
unchanged, and otherwise the center becomes the target plus
`sign(offset) * (freeRadius + (|offset| - freeRadius) * 0.9)`; the scale
is untouched. -/
theorem pan_rubber_formula (st : CameraState) (dx dy w h : ℚ) (c : ℚ × ℚ) :
    ((|st.cx + -dx / st.s - c.1| ≤ freeRadiusFactor * (w / 2) / st.s →
      (applyPanWithRubber st dx dy w h c).cx = st.cx + -dx / st.s) ∧
     (freeRadiusFactor * (w / 2) / st.s < |st.cx + -dx / st.s - c.1| →
      (applyPanWithRubber st dx dy w h c).cx
        = c.1 + (if st.cx + -dx / st.s - c.1 < 0 then (-1 : ℚ) else 1)
          * (freeRadiusFactor * (w / 2) / st.s
            + (|st.cx + -dx / st.s - c.1| - freeRadiusFactor * (w / 2) / st.s)
              * rubberConstant))) ∧
    ((|st.cy + -dy / st.s - c.2| ≤ freeRadiusFactor * (h / 2) / st.s →
      (applyPanWithRubber st dx dy w h c).cy = st.cy + -dy / st.s) ∧
     (freeRadiusFactor * (h / 2) / st.s < |st.cy + -dy / st.s - c.2| →
      (applyPanWithRubber st dx dy w h c).cy
        = c.2 + (if st.cy + -dy / st.s - c.2 < 0 then (-1 : ℚ) else 1)
          * (freeRadiusFactor * (h / 2) / st.s
            + (|st.cy + -dy / st.s - c.2| - freeRadiusFactor * (h / 2) / st.s)
              * rubberConstant))) ∧
    (applyPanWithRubber st dx dy w h c).s = st.s := by
  refine ⟨⟨?_, ?_⟩, ⟨?_, ?_⟩, rfl⟩
  · intro hle
    show applyRubber (st.cx + -dx / st.s) c.1
        (freeRadiusFactor * (w / 2) / st.s) = _
    unfold applyRubber
    dsimp only
    rw [if_pos hle]
  · intro hgt
    show applyRubber (st.cx + -dx / st.s) c.1
        (freeRadiusFactor * (w / 2) / st.s) = _
    unfold applyRubber
    dsimp only
    rw [if_neg (not_le.mpr hgt)]
  · intro hle
    show applyRubber (st.cy + -dy / st.s) c.2
        (freeRadiusFactor * (h / 2) / st.s) = _
    unfold applyRubber
    dsimp only
    rw [if_pos hle]
  · intro hgt
    show applyRubber (st.cy + -dy / st.s) c.2
        (freeRadiusFactor * (h / 2) / st.s) = _
    unfold applyRubber
    dsimp only
    rw [if_neg (not_le.mpr hgt)]

/-- C8 witness: the in-radius case (`8`-pixel delta, free radius `100`)
and the out-of-radius case (`400`-pixel delta) at scale 1. -/
theorem pan_rubber_formula_witness :
    (applyPanWithRubber ⟨0, 0, 1⟩ 8 0 800 600 (0, 0)).cx
      = (0 : ℚ) + -8 / 1 ∧
    (applyPanWithRubber ⟨0, 0, 1⟩ 400 0 800 600 (0, 0)).cx
      = (0 : ℚ) + (if (0 : ℚ) + -400 / 1 - 0 < 0 then (-1 : ℚ) else 1)
        * (freeRadiusFactor * (800 / 2) / 1
          + (|(0 : ℚ) + -400 / 1 - 0| - freeRadiusFactor * (800 / 2) / 1)
            * rubberConstant) := by
  constructor
  · have h := ((pan_rubber_formula ⟨0, 0, 1⟩ 8 0 800 600 (0, 0)).1).1
      (by norm_num [freeRadiusFactor])
    simpa using h
  · have h := ((pan_rubber_formula ⟨0, 0, 1⟩ 400 0 800 600 (0, 0)).1).2
      (by norm_num [freeRadiusFactor])
    simpa using h

end Limb
